import Mathlib

set_option maxHeartbeats 1000000
set_option maxRecDepth 100000

/-
  Verification of the reporter/transport engine of the appoptics-apm-go
  instrumentation library (v1/tv/internal/traceview/reporter.go and
  v1/ao/internal/reporter/reporter.go).

  Modeling conventions:
  * Go `time.Time` and `time.Duration` are int64 nanoseconds.  Every value the
    modeled routines manipulate is nonnegative and far below 2^63, so both are
    modeled as `Nat` (nanoseconds since the zero time).  `time.Time{}` is 0,
    `t.After(u)` is `u < t`, `t.Before(u)` is `t < u`, `t.Add(d)` is `t + d`.
  * Go strings are modeled as `List Char`; `strings.Contains(host, ":")` with a
    one-character needle is `host.contains ':'`.
  * Byte slices (serialized messages/events) are modeled as `List Nat`.
  * External effects are passed in as explicit parameters: the outcome of a
    gRPC dial is a `Bool`, the outcome of a PostMetrics/PostStatus/GetSettings
    round trip is `Option (ResultCode × List Char)` (`none` is a transport
    error, the `List Char` is the collector-supplied redirect argument), the
    outcome of `mAgg.FlushBSON` is `Option (List Nat)`, and the messages
    drained from the status channel are a `List (List Nat)`.
  * Logging (`OboeLog`) has no effect on the modeled state and is dropped.
-/

/-- `time.Minute` in nanoseconds. -/
def timeMinute : Nat := 60000000000

/-- `time.Second` in nanoseconds. -/
def timeSecond : Nat := 1000000000

/-- `time.Millisecond` in nanoseconds. -/
def timeMillisecond : Nat := 1000000

/-- Go `time.Time.Round` for nonnegative times: round to the nearest multiple
of `interval` since the zero time, halves rounded up (away from zero); a
non-positive interval returns the time unchanged. -/
def timeRound (now interval : Nat) : Nat :=
  if interval = 0 then now
  else
    let r := now % interval
    if 2 * r < interval then now - r else now - r + interval

/-- `getNextTime` (reporter.go): the next wake-up time, the nearest multiple of
`interval`, pushed forward by one interval if rounding went backwards. -/
def getNextTime (now interval : Nat) : Nat :=
  let nextTime := timeRound now interval
  if nextTime < now then nextTime + interval else nextTime

/-- The `settings` configuration bundle of `grpcReporter` (reporter.go). -/
structure Settings where
  maxEventBytes : Nat
  grpcReporterFlushTimeout : Nat
  agentMetricsInterval : Nat
  agentMetricsTickInterval : Nat
  retryAmplifier : Nat
  initialRetryInterval : Nat
  maxRetryInterval : Nat
  maxMetricsRetries : Nat
  maxConnRedirects : Nat
  maxConnRetries : Nat
  maxStatusChanCap : Nat
  loadStatusMsgsShortBlock : Nat
  metricsConnKeepAliveInterval : Nat
  maxMetricsMessagesOnePost : Nat
  agentSettingsInterval : Nat
  agentCheckSettingsTTLInterval : Nat
deriving DecidableEq, Repr

/-- `newDefaultSettings` (reporter.go): the default reporter parameters.
`maxConnRetries` is `int(^uint(0) >> 1)`, the maximum 64-bit int. -/
def newDefaultSettings : Settings where
  maxEventBytes := 64 * 1024 * 1024
  grpcReporterFlushTimeout := 100 * timeMillisecond
  agentMetricsInterval := timeMinute
  agentMetricsTickInterval := 500 * timeMillisecond
  retryAmplifier := 2
  initialRetryInterval := 500 * timeMillisecond
  maxRetryInterval := timeMinute
  maxMetricsRetries := 20
  maxConnRedirects := 20
  maxConnRetries := 9223372036854775807
  maxStatusChanCap := 200
  loadStatusMsgsShortBlock := 5 * timeMillisecond
  metricsConnKeepAliveInterval := 20 * timeSecond
  maxMetricsMessagesOnePost := 100
  agentSettingsInterval := 20 * timeSecond
  agentCheckSettingsTTLInterval := 10 * timeSecond

/-- Reporter status constants (reporter.go): `OK`, `DISCONNECTED`, `CLOSING`. -/
inductive Status where
  | OK
  | DISCONNECTED
  | CLOSING
deriving DecidableEq, Repr

/-- The collector result codes of the RPC surface. -/
inductive ResultCode where
  | OK
  | TRY_LATER
  | LIMIT_EXCEEDED
  | INVALID_API_KEY
  | REDIRECT
deriving DecidableEq, Repr

/-- The `Sender` queue (reporter.go): one instance each for metrics, status and
settings. -/
structure Sender where
  messages : List (List Nat)
  nextTime : Nat
  retryActive : Bool
  nextRetryDelay : Nat
  retryTime : Nat
  retries : Nat
deriving DecidableEq, Repr

/-- `newSender` (reporter.go). -/
def newSender (initialRetryInterval : Nat) : Sender where
  messages := []
  nextTime := 0
  retryActive := false
  nextRetryDelay := initialRetryInterval
  retryTime := 0
  retries := 0

/-- `Sender.setRetryDelay` (reporter.go): returns the mutated sender and the
boolean result.  The growing backoff is capped at the hardcoded `time.Minute`,
not at the configured `maxRetryInterval`. -/
def Sender.setRetryDelay (s : Sender) (now retryAmplifier maxMetricsRetries : Nat) :
    Sender × Bool :=
  if s.retries ≥ maxMetricsRetries then
    ({ s with retryActive := false }, false)
  else
    let s1 : Sender := { s with
      retryTime := now + s.nextRetryDelay
      retries := s.retries + 1
      retryActive := true }
    let d := s1.nextRetryDelay * retryAmplifier
    ({ s1 with nextRetryDelay := if d > timeMinute then timeMinute else d }, true)

/-- The `gRPC` connection record (reporter.go).  The RPC client handle is
modeled by whether it is non-nil. -/
structure GRPC where
  hasClient : Bool
  status : Status
  retries : Nat
  nextRetryTime : Nat
  redirects : Nat
  nextKeepAliveTime : Nat
  currTime : Nat
deriving DecidableEq, Repr

/-- `newGRPC` (reporter.go), with a non-nil client. -/
def newGRPC : GRPC where
  hasClient := true
  status := Status.OK
  retries := 0
  nextRetryTime := 0
  redirects := 0
  nextKeepAliveTime := 0
  currTime := 0

/-- `gRPC.reconnect` (reporter.go).  `dialGRPC` is an external effect; its
outcome is the parameter `dialOk`.  The returned boolean records whether a dial
was attempted. -/
def GRPC.reconnect (g : GRPC) (addr certPath : List Char) (dialOk : Bool) (s : Settings) :
    GRPC × Bool :=
  if g.status = Status.OK ∨ g.status = Status.CLOSING then (g, false)
  else if g.retries > s.maxConnRetries then
    ({ g with status := Status.CLOSING }, false)
  else if g.nextRetryTime > g.currTime then (g, false)
  else if dialOk then
    ({ g with
        hasClient := true
        retries := 0
        nextRetryTime := 0
        status := Status.OK
        nextKeepAliveTime := getNextTime g.currTime s.metricsConnKeepAliveInterval }, true)
  else
    let nextInterval := timeSecond * ((g.retries + 1) * s.retryAmplifier)
    let capped := if nextInterval > s.maxRetryInterval then s.maxRetryInterval else nextInterval
    ({ g with nextRetryTime := g.currTime + capped, retries := g.retries + 1 }, true)

/-- Iterated `reconnect`: at each tick the controller snapshots the clock into
`currTime` and runs `reconnect`; the second component counts attempted dials. -/
def reconnectRun (addr certPath : List Char) (s : Settings) :
    GRPC → List (Nat × Bool) → GRPC × Nat
  | g, [] => (g, 0)
  | g, (t, dialOk) :: rest =>
      let g1 : GRPC := { g with currTime := t }
      let step := g1.reconnect addr certPath dialOk s
      let tailRun := reconnectRun addr certPath s step.1 rest
      (tailRun.1, (if step.2 then 1 else 0) + tailRun.2)

/-- The `grpcReporter` state mutated by the periodic controller (reporter.go).
The event client handle, channels and the metrics aggregator are runtime
resources that live outside this pure state. -/
structure GrpcReporter where
  serverAddr : List Char
  metricsConn : GRPC
  metrics : Sender
  status : Sender
  settings : Sender
  s : Settings
deriving DecidableEq, Repr

/-- `grpcReporter.setServerAddr` (reporter.go): hosts containing a port
separator are rejected; nothing is mutated then. -/
def GrpcReporter.setServerAddr (r : GrpcReporter) (host : List Char) : GrpcReporter × Bool :=
  if host.contains ':' then (r, false)
  else ({ r with serverAddr := host }, true)

/-- `grpcReporter.processRedirect` (reporter.go). -/
def GrpcReporter.processRedirect (r : GrpcReporter) (host : List Char) : GrpcReporter :=
  if r.metricsConn.redirects ≥ r.s.maxConnRedirects then
    { r with metricsConn := { r.metricsConn with status := Status.CLOSING } }
  else
    let r1 : GrpcReporter := { r with
      metricsConn := { r.metricsConn with status := Status.DISCONNECTED } }
    let addrRes := r1.setServerAddr host
    if addrRes.2 then
      { addrRes.1 with
          metrics := { addrRes.1.metrics with retryActive := false }
          metricsConn := { addrRes.1.metricsConn with
            redirects := addrRes.1.metricsConn.redirects + 1
            retries := 0
            nextRetryTime := 0 } }
    else
      { addrRes.1 with metricsConn := { addrRes.1.metricsConn with status := Status.CLOSING } }

/-- `grpcReporter.sendMetrics` (reporter.go).  `flushResult` is the outcome of
`mAgg.FlushBSON` (an external collaborator) and `rpc` the outcome of the
`PostMetrics` round trip; `none` is a transport error. -/
def GrpcReporter.sendMetrics (r : GrpcReporter)
    (flushResult : Option (List Nat)) (rpc : Option (ResultCode × List Char)) : GrpcReporter :=
  let r1 :=
    if r.metrics.nextTime < r.metricsConn.currTime then
      let m0 : Sender := { r.metrics with
        nextTime := getNextTime r.metricsConn.currTime r.s.agentMetricsInterval }
      match flushResult with
      | some message =>
          let msgs := m0.messages ++ [message]
          let msgs := if msgs.length > r.s.maxMetricsMessagesOnePost then msgs.tail else msgs
          { r with metrics := { m0 with messages := msgs } }
      | none => { r with metrics := m0 }
    else r
  if r1.metrics.retryActive = true ∧ r1.metricsConn.currTime < r1.metrics.retryTime then r1
  else if r1.metricsConn.status ≠ Status.OK ∨ r1.metrics.messages = [] then r1
  else
    match rpc with
    | none => { r1 with metricsConn := { r1.metricsConn with status := Status.DISCONNECTED } }
    | some (result, arg) =>
      let r2 : GrpcReporter := { r1 with
        metricsConn := { r1.metricsConn with
          nextKeepAliveTime :=
            getNextTime r1.metricsConn.currTime r1.s.metricsConnKeepAliveInterval } }
      match result with
      | ResultCode.OK =>
          { r2 with
              metrics := { r2.metrics with messages := [], retries := 0, retryActive := false }
              metricsConn := { r2.metricsConn with redirects := 0 } }
      | ResultCode.TRY_LATER | ResultCode.LIMIT_EXCEEDED =>
          let ret := r2.metrics.setRetryDelay r2.metricsConn.currTime
            r2.s.retryAmplifier r2.s.maxMetricsRetries
          if ret.2 then { r2 with metrics := { ret.1 with messages := ret.1.messages.tail } }
          else { r2 with metrics := ret.1 }
      | ResultCode.INVALID_API_KEY =>
          { r2 with
              metricsConn := { r2.metricsConn with status := Status.CLOSING }
              metrics := { r2.metrics with messages := [] } }
      | ResultCode.REDIRECT => r2.processRedirect arg

/-- `grpcReporter.sendStatus` (reporter.go).  `newMsgs` are the messages that
`loadStatusMsgs` would drain from the status channel. -/
def GrpcReporter.sendStatus (r : GrpcReporter)
    (newMsgs : List (List Nat)) (rpc : Option (ResultCode × List Char)) : GrpcReporter :=
  if r.metricsConn.status ≠ Status.OK then r
  else if r.status.retryActive = true ∧ r.metricsConn.currTime < r.status.retryTime then r
  else
    let r1 :=
      if r.status.messages.length > 0 then r
      else { r with status := { r.status with messages := r.status.messages ++ newMsgs } }
    if r1.status.messages.length > 0 then
      match rpc with
      | none => { r1 with metricsConn := { r1.metricsConn with status := Status.DISCONNECTED } }
      | some (result, arg) =>
        let r2 : GrpcReporter := { r1 with
          metricsConn := { r1.metricsConn with
            nextKeepAliveTime :=
              getNextTime r1.metricsConn.currTime r1.s.metricsConnKeepAliveInterval } }
        match result with
        | ResultCode.OK =>
            { r2 with
                status := { r2.status with messages := [], retryActive := false }
                metricsConn := { r2.metricsConn with redirects := 0 } }
        | ResultCode.TRY_LATER | ResultCode.LIMIT_EXCEEDED =>
            let ret := r2.status.setRetryDelay r2.metricsConn.currTime
              r2.s.retryAmplifier r2.s.maxMetricsRetries
            if ret.2 then { r2 with status := { ret.1 with messages := [] } }
            else { r2 with status := ret.1 }
        | ResultCode.INVALID_API_KEY =>
            { r2 with
                metricsConn := { r2.metricsConn with status := Status.CLOSING }
                status := { r2.status with messages := [] } }
        | ResultCode.REDIRECT => r2.processRedirect arg
    else r1

/-- `grpcReporter.getSettings` (reporter.go).  `storeSettings` overwrites a
package-global snapshot outside the modeled state and is dropped. -/
def GrpcReporter.getSettings (r : GrpcReporter)
    (rpc : Option (ResultCode × List Char)) : GrpcReporter :=
  if r.metricsConn.status ≠ Status.OK then r
  else
    let tn := r.metricsConn.currTime
    if (r.settings.retryActive = false ∧
          (r.settings.nextTime < tn ∨ r.metricsConn.nextKeepAliveTime < tn)) ∨
       (r.settings.retryActive = true ∧ r.settings.retryTime < tn) then
      match rpc with
      | none => { r with metricsConn := { r.metricsConn with status := Status.DISCONNECTED } }
      | some (result, arg) =>
        let r2 : GrpcReporter := { r with
          metricsConn := { r.metricsConn with
            nextKeepAliveTime := getNextTime tn r.s.metricsConnKeepAliveInterval } }
        match result with
        | ResultCode.OK =>
            { r2 with
                settings := { r2.settings with
                  nextTime := getNextTime tn r2.s.agentSettingsInterval
                  retryActive := false }
                metricsConn := { r2.metricsConn with redirects := 0 } }
        | ResultCode.TRY_LATER | ResultCode.LIMIT_EXCEEDED =>
            let s0 : Sender := { r2.settings with retries := 0 }
            { r2 with
                settings := (s0.setRetryDelay tn r2.s.retryAmplifier r2.s.maxMetricsRetries).1 }
        | ResultCode.INVALID_API_KEY =>
            { r2 with metricsConn := { r2.metricsConn with status := Status.CLOSING } }
        | ResultCode.REDIRECT => r2.processRedirect arg
    else r

/-- Iterating calls of `Sender.setRetryDelay` at a fixed `now`, as a run of
consecutive TRY_LATER/LIMIT_EXCEEDED responses would issue them. -/
def iterSetRetryDelay (now amp ceil : Nat) : Nat → Sender → Sender
  | 0, s => s
  | n + 1, s => ((iterSetRetryDelay now amp ceil n s).setRetryDelay now amp ceil).1

/-- One settings-refresh tick that receives TRY_LATER: the clock moves past
every deadline of the settings sender, then `getSettings` runs and the
collector answers TRY_LATER. -/
def settingsTryLaterStep (r : GrpcReporter) : GrpcReporter :=
  let tn := r.settings.retryTime + r.settings.nextTime + r.metricsConn.nextKeepAliveTime + 1
  GrpcReporter.getSettings
    { r with metricsConn := { r.metricsConn with currTime := tn } }
    (some (ResultCode.TRY_LATER, []))

/-- A run of consecutive settings-refresh ticks each answered with TRY_LATER. -/
def settingsTryLaterIter : GrpcReporter → Nat → GrpcReporter
  | r, 0 => r
  | r, n + 1 => settingsTryLaterIter (settingsTryLaterStep r) n

/-- The eviction loop of `reportEvents` (reporter.go):
`for dropped := 0; dropped < len(evbuf); { oldest, batch = batch[0], batch[1:]; dropped += len(oldest) }`.
Indexing `batch[0]` on an empty batch is a Go runtime panic, modeled as `none`. -/
def dropOldest (need : Nat) : Nat → List (List Nat) → Option (List (List Nat))
  | dropped, [] => if dropped < need then none else some []
  | dropped, oldest :: rest =>
      if dropped < need then dropOldest need (dropped + oldest.length) rest
      else some (oldest :: rest)

/-- One `case evbuf := <-r.ch` iteration of the `reportEvents` loop
(reporter.go): state is the current batch and the running byte total
`eventBytes`; `none` is a runtime panic. -/
def reportEventsStep (maxEventBytes : Nat) (st : List (List Nat) × Nat) (evbuf : List Nat) :
    Option (List (List Nat) × Nat) :=
  if st.2 + evbuf.length > maxEventBytes then
    if evbuf.length ≥ maxEventBytes then
      some st
    else
      match dropOldest evbuf.length 0 st.1 with
      | none => none
      | some batch2 => some (batch2 ++ [evbuf], st.2 + evbuf.length)
  else
    some (st.1 ++ [evbuf], st.2 + evbuf.length)

/-- The batch state of `reportEvents` after a sequence of submitted event
buffers, starting from the empty batch; `none` is a runtime panic. -/
def reportEventsRun (maxEventBytes : Nat) (bufs : List (List Nat)) :
    Option (List (List Nat) × Nat) :=
  bufs.foldlM (reportEventsStep maxEventBytes) ([], 0)

/-- Modelled from the spec (§4.3, §8): the oldest-first eviction law.  An
incoming buffer larger than the ceiling is dropped outright; otherwise buffers
are evicted from the front of the batch, their sizes deducted from the running
total, until the incoming buffer fits, and the buffer is appended. -/
def specEvictFront (maxEventBytes incoming : Nat) :
    List (List Nat) → Nat → List (List Nat) × Nat
  | [], total => ([], total)
  | oldest :: rest, total =>
      if total + incoming > maxEventBytes then
        specEvictFront maxEventBytes incoming rest (total - oldest.length)
      else (oldest :: rest, total)

/-- Modelled from the spec (§4.3, §8): one submission under the oldest-first
eviction law. -/
def specReportEventsStep (maxEventBytes : Nat) (st : List (List Nat) × Nat)
    (evbuf : List Nat) : List (List Nat) × Nat :=
  if evbuf.length > maxEventBytes then st
  else
    let evicted := specEvictFront maxEventBytes evbuf.length st.1 st.2
    (evicted.1 ++ [evbuf], evicted.2 + evbuf.length)

/-- Modelled from the spec (§4.3, §8): the retained batch after a sequence of
submissions under the oldest-first eviction law. -/
def specReportEventsRun (maxEventBytes : Nat) (bufs : List (List Nat)) :
    List (List Nat) × Nat :=
  bufs.foldl (specReportEventsStep maxEventBytes) ([], 0)

/-- The task and operation identifiers of an event or context metadata
(`oboe_ids`). -/
structure OboeIDs where
  taskID : List Nat
  opID : List Nat
deriving DecidableEq, Repr

/-- `oboe_metadata`: only the identifiers matter to the modeled checks. -/
structure OboeMetadata where
  ids : OboeIDs
deriving DecidableEq, Repr

/-- `oboeContext`. -/
structure OboeContext where
  metadata : OboeMetadata
deriving DecidableEq, Repr

/-- An `event`; its BSON buffer contents are irrelevant to the modeled checks. -/
structure OboeEvent where
  metadata : OboeMetadata
deriving DecidableEq, Repr

/-- `reportEvent` (v1/tv/internal/traceview/reporter.go): returns the Go error
(`none` is nil) and whether `WritePacket` was called with the finished buffer.
`bytes.Equal` on identifier slices is list equality.  The timestamp, hostname
and PID additions and the context op-id update mutate data outside the modeled
checks. -/
def reportEvent (isOpen : Bool) (ctx : Option OboeContext) (e : Option OboeEvent) :
    Option String × Bool :=
  if !isOpen then (none, false)
  else
    match ctx, e with
    | none, _ => (some "Invalid context, event", false)
    | _, none => (some "Invalid context, event", false)
    | some c, some ev =>
      if ¬ c.metadata.ids.taskID = ev.metadata.ids.taskID then
        (some "Invalid event, different task_id from context", false)
      else if c.metadata.ids.opID = ev.metadata.ids.opID then
        (some "Invalid event, same as context", false)
      else (none, true)

/-- `prepareEvent` (v1/ao/internal/reporter/reporter.go): returns the Go error
(`none` is nil; the buffer is finished for sending exactly when no error). -/
def prepareEvent (ctx : Option OboeContext) (e : Option OboeEvent) : Option String :=
  match ctx, e with
  | none, _ => some "invalid context, event"
  | _, none => some "invalid context, event"
  | some c, some ev =>
    if ¬ c.metadata.ids.taskID = ev.metadata.ids.taskID then
      some "invalid event, different task_id from context"
    else if c.metadata.ids.opID = ev.metadata.ids.opID then
      some "invalid event, same as context"
    else none

/-- A connection configuration with a small retry ceiling, for concrete runs. -/
def testConnSettings : Settings := { newDefaultSettings with maxConnRetries := 1 }

/-- A disconnected connection about to run `reconnect` at tick time 100. -/
def testConnFresh : GRPC where
  hasClient := false
  status := Status.DISCONNECTED
  retries := 0
  nextRetryTime := 0
  redirects := 0
  nextKeepAliveTime := 0
  currTime := 100

/-- The connection after one failed dial, observed at a later tick. -/
def testConnAfterOneFailure : GRPC :=
  { (testConnFresh.reconnect [] [] false testConnSettings).1 with currTime := 10000000000 }

/-- A healthy reporter with pending metrics and status messages, a grown
metrics backoff, nonzero retry counters and a nonzero redirect counter. -/
def testReporter : GrpcReporter where
  serverAddr := "collector.example.com".data
  metricsConn :=
    { hasClient := true, status := Status.OK, retries := 0, nextRetryTime := 0,
      redirects := 5, nextKeepAliveTime := 999999999999999, currTime := 5 }
  metrics :=
    { messages := [[1]], nextTime := 5, retryActive := false,
      nextRetryDelay := 1000000000, retryTime := 0, retries := 4 }
  status :=
    { messages := [[2]], nextTime := 0, retryActive := false,
      nextRetryDelay := 2000000000, retryTime := 0, retries := 3 }
  settings :=
    { messages := [], nextTime := 999999999999, retryActive := true,
      nextRetryDelay := 500000000, retryTime := 1, retries := 0 }
  s := newDefaultSettings

/-- A freshly constructed healthy reporter (as `newGRPCReporterWithConfig`
builds it, with the senders from `newSender`). -/
def freshReporter : GrpcReporter where
  serverAddr := "collector.example.com".data
  metricsConn :=
    { hasClient := true, status := Status.OK, retries := 0, nextRetryTime := 0,
      redirects := 0, nextKeepAliveTime := 0, currTime := 0 }
  metrics := newSender 500000000
  status := newSender 500000000
  settings := newSender 500000000
  s := newDefaultSettings

theorem dropOldest_subset (need : Nat) :
    ∀ (batch : List (List Nat)) (dropped : Nat) (out : List (List Nat)),
      dropOldest need dropped batch = some out → ∀ b ∈ out, b ∈ batch := by
  intro batch
  induction batch with
  | nil =>
      intro dropped out h
      unfold dropOldest at h
      split at h
      · exact absurd h (by simp)
      · simp at h
        simp [← h]
  | cons oldest rest ih =>
      intro dropped out h
      unfold dropOldest at h
      split at h
      · intro b hb
        exact List.mem_cons_of_mem _ (ih _ _ h b hb)
      · simp at h
        simp [← h]

/-- C1: submitting event buffers of sizes 10, 20 and 5 bytes with a byte
ceiling of 25 does not leave the retained batch equal to [20, 5]: on the
20-byte buffer the eviction loop of `reportEvents` must drop at least 20 bytes
but the batch holds only 10, so it indexes an empty batch — a runtime panic
(`none`).  The eviction law modeled from the spec does retain [20, 5] with
total 25. -/
theorem c1_event_batch_eviction_code_bug :
    reportEventsRun 25 [List.replicate 10 0, List.replicate 20 0, List.replicate 5 0] = none ∧
    specReportEventsRun 25 [List.replicate 10 0, List.replicate 20 0, List.replicate 5 0] =
      ([List.replicate 20 0, List.replicate 5 0], 25) := by
  decide

/-- C9: a submitted event buffer strictly larger than `maxEventBytes` is
dropped outright by the `reportEvents` loop — the batch and the running byte
total are unchanged by its submission — and every non-panicking step keeps
every buffer of the batch within the ceiling, so an oversize buffer never
appears in any batch handed to the poster. -/
theorem c9_oversize_drop (maxB : Nat) (st : List (List Nat) × Nat) (evbuf : List Nat)
    (h : maxB < evbuf.length) :
    reportEventsStep maxB st evbuf = some st ∧
    (∀ (st2 : List (List Nat) × Nat) (buf : List Nat) (out : List (List Nat) × Nat),
        reportEventsStep maxB st2 buf = some out →
        (∀ b ∈ st2.1, b.length ≤ maxB) → ∀ b ∈ out.1, b.length ≤ maxB) := by
  constructor
  · unfold reportEventsStep
    rw [if_pos (by omega), if_pos (by omega)]
  · intro st2 buf out hstep hinv b hb
    unfold reportEventsStep at hstep
    split at hstep
    · next hover =>
        split at hstep
        · next => simp at hstep; rw [← hstep] at hb; exact hinv b hb
        · next hbig =>
            rcases hdrop : dropOldest buf.length 0 st2.1 with _ | batch2
            · rw [hdrop] at hstep; exact absurd hstep (by simp)
            · rw [hdrop] at hstep
              simp at hstep
              rw [← hstep] at hb
              simp at hb
              rcases hb with hb | hb
              · exact hinv b (dropOldest_subset _ _ _ _ hdrop b hb)
              · rw [hb]; omega
    · next hfits =>
        simp at hstep
        rw [← hstep] at hb
        simp at hb
        rcases hb with hb | hb
        · exact hinv b hb
        · rw [hb]; omega

theorem c9_oversize_drop_witness :
    25 < (List.replicate 26 0).length ∧
    reportEventsStep 25 ([List.replicate 10 0], 10) (List.replicate 26 0) =
      some ([List.replicate 10 0], 10) := by
  have h := c9_oversize_drop 25 ([List.replicate 10 0], 10) (List.replicate 26 0) (by decide)
  exact ⟨by decide, h.1⟩

/-- C5: `processRedirect` forces CLOSING once the redirect counter has reached
`maxConnRedirects`; otherwise it sets DISCONNECTED and, for a host without a
port separator, installs the host as the server address, clears the metrics
sender's retry-active flag, increments the redirect counter and resets the
connection retry counter and scheduled retry timestamp; a host containing ':'
is rejected and forces CLOSING. -/
theorem c5_processRedirect_contract (r : GrpcReporter) (host : List Char) :
    (r.s.maxConnRedirects ≤ r.metricsConn.redirects →
        r.processRedirect host =
          { r with metricsConn := { r.metricsConn with status := Status.CLOSING } }) ∧
    (r.metricsConn.redirects < r.s.maxConnRedirects → host.contains ':' = false →
        r.processRedirect host =
          { r with
              serverAddr := host
              metrics := { r.metrics with retryActive := false }
              metricsConn := { r.metricsConn with
                status := Status.DISCONNECTED
                redirects := r.metricsConn.redirects + 1
                retries := 0
                nextRetryTime := 0 } }) ∧
    (r.metricsConn.redirects < r.s.maxConnRedirects → host.contains ':' = true →
        r.processRedirect host =
          { r with metricsConn := { r.metricsConn with status := Status.CLOSING } }) := by
  refine ⟨?_, ?_, ?_⟩
  · intro hceil
    unfold GrpcReporter.processRedirect
    rw [if_pos hceil]
  · intro hlt hhost
    have hmem : ¬ ':' ∈ host := by simpa using hhost
    unfold GrpcReporter.processRedirect GrpcReporter.setServerAddr
    rw [if_neg (by omega)]
    simp [hmem]
  · intro hlt hhost
    have hmem : ':' ∈ host := by simpa using hhost
    unfold GrpcReporter.processRedirect GrpcReporter.setServerAddr
    rw [if_neg (by omega)]
    simp [hmem]

theorem c5_processRedirect_contract_witness :
    testReporter.metricsConn.redirects < testReporter.s.maxConnRedirects ∧
    ("new-collector.example.com".data.contains ':' = false) ∧
    (testReporter.processRedirect "new-collector.example.com".data).serverAddr =
      "new-collector.example.com".data ∧
    (testReporter.processRedirect "new-collector.example.com".data).metricsConn.status =
      Status.DISCONNECTED ∧
    (testReporter.processRedirect "new-collector.example.com".data).metricsConn.redirects = 6 := by
  have h := (c5_processRedirect_contract testReporter "new-collector.example.com".data).2.1
    (by decide) (by decide)
  refine ⟨by decide, by decide, ?_, ?_, ?_⟩ <;> (rw [h]; try decide)

/-- C10: when the redirect host contains a ':' separator, `processRedirect`
changes nothing but the connection status, which ends at CLOSING: the server
address, the metrics sender (its retry-active flag included), the redirect
counter, the connection retry counter and the scheduled retry timestamp are
all left unchanged. -/
theorem c10_redirect_invalid_host_frame (r : GrpcReporter) (host : List Char)
    (h : host.contains ':' = true) :
    r.processRedirect host =
      { r with metricsConn := { r.metricsConn with status := Status.CLOSING } } := by
  have hmem : ':' ∈ host := by simpa using h
  unfold GrpcReporter.processRedirect GrpcReporter.setServerAddr
  split
  · rfl
  · simp [hmem]

theorem c10_redirect_invalid_host_frame_witness :
    ("h:443".data.contains ':' = true) ∧
    testReporter.processRedirect "h:443".data =
      { testReporter with
          metricsConn := { testReporter.metricsConn with status := Status.CLOSING } } := by
  exact ⟨by decide, c10_redirect_invalid_host_frame testReporter "h:443".data (by decide)⟩

/-- C8 counterexample: with mismatched task identifiers but a reporter that is
not open, `reportEvent` returns a nil error (and writes nothing) instead of
failing with a validation error, so the claim's "whenever" does not hold. -/
theorem c8_validation_counterexample :
    reportEvent false (some { metadata := { ids := { taskID := [1], opID := [2] } } })
        (some { metadata := { ids := { taskID := [9], opID := [3] } } }) = (none, false) ∧
    ([1] : List Nat) ≠ [9] := by
  decide

/-- C8 (amended): `prepareEvent` always fails with a validation error when the
event's task identifier differs from the context's, or when the event's
operation identifier equals the context's; `reportEvent` does so provided the
reporter is open; in these cases no packet is ever written, and when the
reporter is not open `reportEvent` returns a nil error and writes nothing. -/
theorem c8_validation_amended (c : OboeContext) (ev : OboeEvent) :
    (c.metadata.ids.taskID ≠ ev.metadata.ids.taskID →
        prepareEvent (some c) (some ev) =
          some "invalid event, different task_id from context" ∧
        reportEvent true (some c) (some ev) =
          (some "Invalid event, different task_id from context", false)) ∧
    (c.metadata.ids.taskID = ev.metadata.ids.taskID →
        c.metadata.ids.opID = ev.metadata.ids.opID →
        prepareEvent (some c) (some ev) = some "invalid event, same as context" ∧
        reportEvent true (some c) (some ev) = (some "Invalid event, same as context", false)) ∧
    (∀ b : Bool,
        (c.metadata.ids.taskID ≠ ev.metadata.ids.taskID ∨
         c.metadata.ids.opID = ev.metadata.ids.opID) →
        (reportEvent b (some c) (some ev)).2 = false) ∧
    reportEvent false (some c) (some ev) = (none, false) := by
  refine ⟨?_, ?_, ?_, ?_⟩
  · intro h
    constructor
    · simp [prepareEvent, h]
    · simp [reportEvent, h]
  · intro ht hop
    constructor
    · simp [prepareEvent, ht, hop]
    · simp [reportEvent, ht, hop]
  · intro b hbad
    cases b with
    | false => rfl
    | true =>
        rcases hbad with h | h
        · simp [reportEvent, h]
        · by_cases ht : c.metadata.ids.taskID = ev.metadata.ids.taskID
          · simp [reportEvent, ht, h]
          · simp [reportEvent, ht]
  · rfl

theorem c8_validation_amended_witness :
    prepareEvent (some { metadata := { ids := { taskID := [1], opID := [2] } } })
        (some { metadata := { ids := { taskID := [9], opID := [3] } } }) =
      some "invalid event, different task_id from context" ∧
    reportEvent true (some { metadata := { ids := { taskID := [1], opID := [2] } } })
        (some { metadata := { ids := { taskID := [9], opID := [3] } } }) =
      (some "Invalid event, different task_id from context", false) := by
  exact (c8_validation_amended
    { metadata := { ids := { taskID := [1], opID := [2] } } }
    { metadata := { ids := { taskID := [9], opID := [3] } } }).1 (by decide)

theorem capAtMinute_min (x amp : Nat) (hamp : 1 ≤ amp) :
    (if min timeMinute x * amp > timeMinute then timeMinute else min timeMinute x * amp) =
      min timeMinute (x * amp) := by
  rcases le_total x timeMinute with h | h
  · rw [min_eq_right h]
    split
    · next hgt => rw [min_eq_left (le_of_lt hgt)]
    · next hle => rw [min_eq_right (not_lt.mp hle)]
  · rw [min_eq_left h]
    have h1 : timeMinute ≤ timeMinute * amp := Nat.le_mul_of_pos_right _ hamp
    have h2 : timeMinute ≤ x * amp := le_trans h (Nat.le_mul_of_pos_right _ hamp)
    split
    · next => rw [min_eq_left h2]
    · next hle =>
        have hmm : timeMinute * amp = timeMinute := le_antisymm (not_lt.mp hle) h1
        rw [hmm, min_eq_left h2]

theorem iterSetRetryDelay_closed_form (initial amp ceil now : Nat)
    (hinit : initial ≤ timeMinute) (hamp : 1 ≤ amp) :
    ∀ n, n ≤ ceil →
      iterSetRetryDelay now amp ceil n (newSender initial) =
        { messages := []
          nextTime := 0
          retryActive := decide (0 < n)
          nextRetryDelay := min timeMinute (initial * amp ^ n)
          retryTime := if n = 0 then 0 else now + min timeMinute (initial * amp ^ (n - 1))
          retries := n } := by
  intro n
  induction n with
  | zero =>
      intro _
      simp [iterSetRetryDelay, newSender, min_eq_right hinit]
  | succ m ih =>
      intro hle
      have hm : m ≤ ceil := Nat.le_of_succ_le hle
      have hnot : ¬ m ≥ ceil := Nat.not_le.mpr (Nat.lt_of_succ_le hle)
      unfold iterSetRetryDelay
      rw [ih hm]
      unfold Sender.setRetryDelay
      simp only [hnot, if_false]
      rw [capAtMinute_min _ _ hamp]
      simp [pow_succ, Nat.lt_succ_of_le, mul_assoc]

/-- C2 counterexample: with `initialRetryInterval = 500ms` and amplifier 2, the
first TRY_LATER-driven `setRetryDelay` call schedules a delay of 500ms, whereas
the claimed formula `min(maxRetryInterval, initialRetryInterval * amplifier^n)`
gives 1000ms for n = 1 — the exponent is off by one. -/
theorem c2_backoff_formula_counterexample :
    ((newSender 500000000).setRetryDelay 0 2 20).1.retryTime = 500000000 ∧
    ((newSender 500000000).setRetryDelay 0 2 20).2 = true ∧
    min newDefaultSettings.maxRetryInterval (500000000 * 2 ^ 1) = 1000000000 ∧
    (500000000 : Nat) ≠ 1000000000 := by
  decide

/-- C2 (amended): starting from a fresh sender, while the retry counter stays
below the ceiling, the n-th scheduled retry delay (the n-th call's
`retryTime - now`) equals `min(time.Minute, initialRetryInterval *
amplifier^(n-1))` — the cap is the hardcoded one-minute constant, equal to the
default `maxRetryInterval` —, each such call succeeds and marks retry-active,
the backoff grows by the amplifier on each call (`min(time.Minute, initial *
amplifier^n)` after n calls), and the retry counter after n calls is n.  In
particular with 500ms and amplifier 2 the first two delays are 500ms and
1000ms and the counter ends at 2. -/
theorem c2_backoff_amended (initial amp ceil now n : Nat)
    (hinit : initial ≤ timeMinute) (hamp : 1 ≤ amp) (hn : 0 < n) (hceil : n ≤ ceil) :
    (iterSetRetryDelay now amp ceil n (newSender initial)).retryTime =
      now + min timeMinute (initial * amp ^ (n - 1)) ∧
    (iterSetRetryDelay now amp ceil n (newSender initial)).retries = n ∧
    (iterSetRetryDelay now amp ceil n (newSender initial)).retryActive = true ∧
    (iterSetRetryDelay now amp ceil n (newSender initial)).nextRetryDelay =
      min timeMinute (initial * amp ^ n) ∧
    ((iterSetRetryDelay now amp ceil (n - 1) (newSender initial)).setRetryDelay
        now amp ceil).2 = true := by
  have hcf := iterSetRetryDelay_closed_form initial amp ceil now hinit hamp n hceil
  have hcfp := iterSetRetryDelay_closed_form initial amp ceil now hinit hamp (n - 1)
    (le_trans (Nat.sub_le n 1) hceil)
  refine ⟨?_, ?_, ?_, ?_, ?_⟩
  · rw [hcf]; simp [Nat.pos_iff_ne_zero.mp hn]
  · rw [hcf]
  · rw [hcf]; simp [hn]
  · rw [hcf]
  · rw [hcfp]
    unfold Sender.setRetryDelay
    have : ¬ n - 1 ≥ ceil := by omega
    simp [this]

theorem c2_backoff_amended_witness :
    (iterSetRetryDelay 0 2 20 1 (newSender 500000000)).retryTime = 500000000 ∧
    (iterSetRetryDelay 0 2 20 2 (newSender 500000000)).retryTime = 1000000000 ∧
    (iterSetRetryDelay 0 2 20 2 (newSender 500000000)).retries = 2 := by
  have h1 := c2_backoff_amended 500000000 2 20 0 1 (by decide) (by decide) (by decide) (by decide)
  have h2 := c2_backoff_amended 500000000 2 20 0 2 (by decide) (by decide) (by decide) (by decide)
  refine ⟨?_, ?_, h2.2.1⟩
  · rw [h1.1]; decide
  · rw [h2.1]; decide

/-- C3 counterexample: on an OK result the metrics sender's backoff delay is
not restored to the initial retry interval (it stays at its grown value), and
the status sender's retry counter is not reset to zero. -/
theorem c3_ok_reset_counterexample :
    (testReporter.sendMetrics none (some (ResultCode.OK, []))).metrics.nextRetryDelay =
      1000000000 ∧
    (testReporter.sendMetrics none (some (ResultCode.OK, []))).metrics.nextRetryDelay ≠
      testReporter.s.initialRetryInterval ∧
    (testReporter.sendStatus [] (some (ResultCode.OK, []))).status.retries = 3 ∧
    (testReporter.sendStatus [] (some (ResultCode.OK, []))).status.retries ≠ 0 := by
  decide

/-- C3 (amended): when a post actually happens and the collector answers OK —
metrics: the pending queue is cleared, the retry counter is reset to zero, the
retry-active flag is cleared and the connection's redirect counter is reset;
status: the pending queue is cleared, the retry-active flag is cleared and the
redirect counter is reset, but the retry counter is left unchanged; settings:
the retry-active flag is cleared, the next fetch time is rescheduled and the
redirect counter is reset (its queue is untouched).  In no case is the backoff
delay (`nextRetryDelay`) restored to the initial retry interval — the record
equalities below leave it untouched. -/
theorem c3_ok_reset_amended (r : GrpcReporter) (arg : List Char)
    (hst : r.metricsConn.status = Status.OK)
    (hflush : ¬ r.metrics.nextTime < r.metricsConn.currTime)
    (hmret : ¬ (r.metrics.retryActive = true ∧ r.metricsConn.currTime < r.metrics.retryTime))
    (hmne : r.metrics.messages ≠ [])
    (hsret : ¬ (r.status.retryActive = true ∧ r.metricsConn.currTime < r.status.retryTime))
    (hsne : r.status.messages ≠ [])
    (hset : (r.settings.retryActive = false ∧
              (r.settings.nextTime < r.metricsConn.currTime ∨
               r.metricsConn.nextKeepAliveTime < r.metricsConn.currTime)) ∨
            (r.settings.retryActive = true ∧
              r.settings.retryTime < r.metricsConn.currTime)) :
    r.sendMetrics none (some (ResultCode.OK, arg)) =
      { r with
          metrics := { r.metrics with messages := [], retries := 0, retryActive := false }
          metricsConn := { r.metricsConn with
            nextKeepAliveTime :=
              getNextTime r.metricsConn.currTime r.s.metricsConnKeepAliveInterval
            redirects := 0 } } ∧
    r.sendStatus [] (some (ResultCode.OK, arg)) =
      { r with
          status := { r.status with messages := [], retryActive := false }
          metricsConn := { r.metricsConn with
            nextKeepAliveTime :=
              getNextTime r.metricsConn.currTime r.s.metricsConnKeepAliveInterval
            redirects := 0 } } ∧
    r.getSettings (some (ResultCode.OK, arg)) =
      { r with
          settings := { r.settings with
            nextTime := getNextTime r.metricsConn.currTime r.s.agentSettingsInterval
            retryActive := false }
          metricsConn := { r.metricsConn with
            nextKeepAliveTime :=
              getNextTime r.metricsConn.currTime r.s.metricsConnKeepAliveInterval
            redirects := 0 } } := by
  refine ⟨?_, ?_, ?_⟩
  · unfold GrpcReporter.sendMetrics
    simp [hflush, hmret, hst, hmne]
  · unfold GrpcReporter.sendStatus
    have hlen : r.status.messages.length > 0 := List.length_pos.mpr hsne
    simp [hsret, hst, hlen]
  · unfold GrpcReporter.getSettings
    simp only [hst]
    rw [if_neg (by simp), if_pos hset]

theorem c3_ok_reset_amended_witness :
    testReporter.sendMetrics none (some (ResultCode.OK, [])) =
      { testReporter with
          metrics := { testReporter.metrics with
            messages := [], retries := 0, retryActive := false }
          metricsConn := { testReporter.metricsConn with
            nextKeepAliveTime := getNextTime testReporter.metricsConn.currTime
              testReporter.s.metricsConnKeepAliveInterval
            redirects := 0 } } ∧
    (testReporter.getSettings (some (ResultCode.OK, []))).metricsConn.redirects = 0 := by
  have h := c3_ok_reset_amended testReporter [] (by decide) (by decide) (by decide)
    (by decide) (by decide) (by decide) (Or.inr ⟨by decide, by decide⟩)
  exact ⟨h.1, by rw [h.2.2]⟩

/-- C7: on a TRY_LATER or LIMIT_EXCEEDED result code `setRetryDelay` is
invoked, and when it successfully schedules a retry (counter below the
ceiling) the metrics sender removes exactly its oldest pending message —
keeping the rest in order — while the status sender clears its entire pending
queue; both senders' retry counters are incremented, the retry-active flags
set, and the retry times scheduled at `now + nextRetryDelay`. -/
theorem c7_trylater_drop_policy (r : GrpcReporter) (arg : List Char) (code : ResultCode)
    (hcode : code = ResultCode.TRY_LATER ∨ code = ResultCode.LIMIT_EXCEEDED)
    (hst : r.metricsConn.status = Status.OK)
    (hflush : ¬ r.metrics.nextTime < r.metricsConn.currTime)
    (hmret : ¬ (r.metrics.retryActive = true ∧ r.metricsConn.currTime < r.metrics.retryTime))
    (hmne : r.metrics.messages ≠ [])
    (hmceil : r.metrics.retries < r.s.maxMetricsRetries)
    (hsret : ¬ (r.status.retryActive = true ∧ r.metricsConn.currTime < r.status.retryTime))
    (hsne : r.status.messages ≠ [])
    (hsceil : r.status.retries < r.s.maxMetricsRetries) :
    (r.sendMetrics none (some (code, arg))).metrics.messages = r.metrics.messages.tail ∧
    (r.sendMetrics none (some (code, arg))).metrics.retries = r.metrics.retries + 1 ∧
    (r.sendMetrics none (some (code, arg))).metrics.retryActive = true ∧
    (r.sendMetrics none (some (code, arg))).metrics.retryTime =
      r.metricsConn.currTime + r.metrics.nextRetryDelay ∧
    (r.sendStatus [] (some (code, arg))).status.messages = [] ∧
    (r.sendStatus [] (some (code, arg))).status.retries = r.status.retries + 1 ∧
    (r.sendStatus [] (some (code, arg))).status.retryActive = true ∧
    (r.sendStatus [] (some (code, arg))).status.retryTime =
      r.metricsConn.currTime + r.status.nextRetryDelay := by
  have hmnot : ¬ r.metrics.retries ≥ r.s.maxMetricsRetries := Nat.not_le.mpr hmceil
  have hsnot : ¬ r.status.retries ≥ r.s.maxMetricsRetries := Nat.not_le.mpr hsceil
  have hslen : r.status.messages.length > 0 := List.length_pos.mpr hsne
  rcases hcode with hc | hc <;> subst hc <;>
    refine ⟨?_, ?_, ?_, ?_, ?_, ?_, ?_, ?_⟩ <;>
    first
      | (unfold GrpcReporter.sendMetrics Sender.setRetryDelay
         simp [hflush, hmret, hst, hmne, hmnot])
      | (unfold GrpcReporter.sendStatus Sender.setRetryDelay
         simp [hsret, hst, hslen, hsnot])

theorem c7_trylater_drop_policy_witness :
    (testReporter.sendMetrics none (some (ResultCode.TRY_LATER, []))).metrics.messages = [] ∧
    (testReporter.sendMetrics none
        (some (ResultCode.TRY_LATER, []))).metrics.retries = 5 ∧
    (testReporter.sendStatus [] (some (ResultCode.TRY_LATER, []))).status.messages = [] ∧
    (testReporter.sendStatus [] (some (ResultCode.TRY_LATER, []))).status.retries = 4 := by
  have h := c7_trylater_drop_policy testReporter [] ResultCode.TRY_LATER (Or.inl rfl)
    (by decide) (by decide) (by decide) (by decide) (by decide) (by decide) (by decide)
    (by decide)
  refine ⟨?_, ?_, ?_, ?_⟩
  · rw [h.1]; decide
  · rw [h.2.1]; decide
  · exact h.2.2.2.2.1
  · rw [h.2.2.2.2.2.1]; decide

theorem reconnectRun_closing (addr certPath : List Char) (s : Settings) :
    ∀ (ticks : List (Nat × Bool)) (g : GRPC), g.status = Status.CLOSING →
      (reconnectRun addr certPath s g ticks).2 = 0 ∧
      (reconnectRun addr certPath s g ticks).1.status = Status.CLOSING := by
  intro ticks
  induction ticks with
  | nil => intro g h; exact ⟨rfl, h⟩
  | cons td rest ih =>
      intro g h
      obtain ⟨t, dialOk⟩ := td
      have hre : ({ g with currTime := t } : GRPC).reconnect addr certPath dialOk s =
          ({ g with currTime := t }, false) := by
        unfold GRPC.reconnect
        rw [if_pos (Or.inr (by simp [h]))]
      have hrest := ih { g with currTime := t } (by simp [h])
      unfold reconnectRun
      simp only [hre]
      simpa using hrest

/-- C4 counterexample: with `maxConnRetries = 1`, after one failed dial attempt
(the ceiling's worth of consecutive failures) the connection is still
DISCONNECTED, and the next `reconnect` call attempts another dial — the code
only gives up once the retry counter strictly exceeds the ceiling, so "after
`maxConnRetries` consecutive failed dial attempts the connection becomes
CLOSING and never attempts another dial" fails. -/
theorem c4_reconnect_counterexample :
    testConnSettings.maxConnRetries = 1 ∧
    testConnAfterOneFailure.retries = 1 ∧
    testConnAfterOneFailure.status = Status.DISCONNECTED ∧
    (testConnAfterOneFailure.reconnect [] [] false testConnSettings).2 = true ∧
    (testConnAfterOneFailure.reconnect [] [] false testConnSettings).1.status =
      Status.DISCONNECTED := by
  decide

/-- C4 (amended): `reconnect` is a no-op when the status is OK (healthy) or
CLOSING; when DISCONNECTED with the retry counter strictly exceeding the
ceiling it forces CLOSING without dialing — so the give-up happens only after
`maxConnRetries + 1` consecutive failed dial attempts, one more than the claim
states — and once CLOSING no later call ever dials; when the next-eligible
retry time has not arrived it changes nothing; otherwise it dials: on failure
it schedules the next retry at the tick time plus
`min(maxRetryInterval, (retries+1) * retryAmplifier)` seconds and increments
the retry counter, and on success it installs the client handle, zeroes the
retry counter, clears the retry timestamp, sets OK and reschedules the
keep-alive timestamp. -/
theorem c4_reconnect_amended (g : GRPC) (s : Settings) (addr certPath : List Char)
    (dialOk : Bool) :
    ((g.status = Status.OK ∨ g.status = Status.CLOSING) →
        g.reconnect addr certPath dialOk s = (g, false)) ∧
    (g.status = Status.DISCONNECTED → s.maxConnRetries < g.retries →
        g.reconnect addr certPath dialOk s = ({ g with status := Status.CLOSING }, false)) ∧
    (g.status = Status.DISCONNECTED → g.retries ≤ s.maxConnRetries →
        g.currTime < g.nextRetryTime →
        g.reconnect addr certPath dialOk s = (g, false)) ∧
    (g.status = Status.DISCONNECTED → g.retries ≤ s.maxConnRetries →
        ¬ g.currTime < g.nextRetryTime →
        g.reconnect addr certPath false s =
          ({ g with
              nextRetryTime := g.currTime +
                (if timeSecond * ((g.retries + 1) * s.retryAmplifier) > s.maxRetryInterval
                 then s.maxRetryInterval
                 else timeSecond * ((g.retries + 1) * s.retryAmplifier))
              retries := g.retries + 1 }, true)) ∧
    (g.status = Status.DISCONNECTED → g.retries ≤ s.maxConnRetries →
        ¬ g.currTime < g.nextRetryTime →
        g.reconnect addr certPath true s =
          ({ g with
              hasClient := true
              retries := 0
              nextRetryTime := 0
              status := Status.OK
              nextKeepAliveTime := getNextTime g.currTime s.metricsConnKeepAliveInterval },
           true)) ∧
    (g.status = Status.CLOSING → ∀ ticks : List (Nat × Bool),
        (reconnectRun addr certPath s g ticks).2 = 0 ∧
        (reconnectRun addr certPath s g ticks).1.status = Status.CLOSING) := by
  refine ⟨?_, ?_, ?_, ?_, ?_, ?_⟩
  · intro h
    unfold GRPC.reconnect
    rw [if_pos h]
  · intro h hceil
    unfold GRPC.reconnect
    rw [if_pos hceil]
    simp [h]
  · intro h hceil htime
    unfold GRPC.reconnect
    rw [if_neg (Nat.not_lt.mpr hceil)]
    rw [if_pos htime]
    simp [h]
  · intro h hceil htime
    unfold GRPC.reconnect
    rw [if_neg (Nat.not_lt.mpr hceil), if_neg htime]
    simp [h]
  · intro h hceil htime
    unfold GRPC.reconnect
    rw [if_neg (Nat.not_lt.mpr hceil), if_neg htime]
    simp [h]
  · intro h ticks
    exact reconnectRun_closing addr certPath s ticks g h

theorem c4_reconnect_amended_witness :
    (({ testConnFresh with status := Status.CLOSING } : GRPC).reconnect [] [] true
      testConnSettings) = ({ testConnFresh with status := Status.CLOSING }, false) ∧
    testConnFresh.reconnect [] [] false testConnSettings =
      ({ testConnFresh with nextRetryTime := 2000000100, retries := 1 }, true) ∧
    (reconnectRun [] [] testConnSettings { testConnFresh with status := Status.CLOSING }
      [(200, true), (300, false)]).2 = 0 := by
  have h := c4_reconnect_amended testConnFresh testConnSettings [] [] true
  have hc := c4_reconnect_amended { testConnFresh with status := Status.CLOSING }
    testConnSettings [] [] true
  refine ⟨hc.1 (Or.inr (by decide)), ?_, ?_⟩
  · have h4 := h.2.2.2.1 (by decide) (by decide) (by decide)
    rw [h4]; decide
  · exact ((hc.2.2.2.2.2 (by decide)) [(200, true), (300, false)]).1

theorem settingsTryLaterStep_spec (r : GrpcReporter)
    (hst : r.metricsConn.status = Status.OK) (hceil : 0 < r.s.maxMetricsRetries) :
    (settingsTryLaterStep r).metricsConn.status = Status.OK ∧
    (settingsTryLaterStep r).settings.retries = 1 ∧
    (settingsTryLaterStep r).settings.retryActive = true ∧
    (settingsTryLaterStep r).s = r.s := by
  have hnot : ¬ (0 ≥ r.s.maxMetricsRetries) := by omega
  have h1 : r.settings.nextTime <
      r.settings.retryTime + r.settings.nextTime + r.metricsConn.nextKeepAliveTime + 1 := by
    omega
  have h2 : r.settings.retryTime <
      r.settings.retryTime + r.settings.nextTime + r.metricsConn.nextKeepAliveTime + 1 := by
    omega
  cases hb : r.settings.retryActive
  · simp [settingsTryLaterStep, GrpcReporter.getSettings, Sender.setRetryDelay,
      hst, hb, hnot, h1]
  · simp [settingsTryLaterStep, GrpcReporter.getSettings, Sender.setRetryDelay,
      hst, hb, hnot, h2]

theorem settingsTryLaterIter_spec :
    ∀ (n : Nat) (r : GrpcReporter), r.metricsConn.status = Status.OK →
      0 < r.s.maxMetricsRetries →
      (settingsTryLaterIter r (n + 1)).settings.retryActive = true ∧
      (settingsTryLaterIter r (n + 1)).settings.retries = 1 := by
  intro n
  induction n with
  | zero =>
      intro r hst hceil
      have h := settingsTryLaterStep_spec r hst hceil
      exact ⟨h.2.2.1, h.2.1⟩
  | succ m ih =>
      intro r hst hceil
      have h := settingsTryLaterStep_spec r hst hceil
      have hrec := ih (settingsTryLaterStep r) h.1 (by rw [h.2.2.2]; exact hceil)
      simpa [settingsTryLaterIter] using hrec

/-- C6 counterexample: with the default ceiling `maxMetricsRetries = 20`, a run
of 21 consecutive TRY_LATER-answered settings refreshes still schedules a retry
on the 21st response (retry-active stays set and the counter is 1, because
`getSettings` zeroes the settings retry counter before every `setRetryDelay`
call — the source comments "retry infinitely"), so the number of consecutive
TRY_LATER-driven settings retry attempts does exceed the ceiling. -/
theorem c6_settings_retry_counterexample :
    newDefaultSettings.maxMetricsRetries = 20 ∧
    (settingsTryLaterIter freshReporter 21).settings.retryActive = true ∧
    (settingsTryLaterIter freshReporter 21).settings.retries = 1 := by
  decide

/-- C6 (amended): the settings sender is not bounded by the retry ceiling: it
zeroes its retry counter before each `setRetryDelay` call, so every
TRY_LATER/LIMIT_EXCEEDED response schedules another retry (whenever the
ceiling is positive) and its retry counter never exceeds 1 — settings retries
are deliberately unbounded.  The bounded mechanism does hold for the `Sender`
routine itself: `setRetryDelay` refuses to schedule once the retry counter has
reached the ceiling, which is what bounds the metrics and status senders. -/
theorem c6_settings_retry_amended (r : GrpcReporter) (n : Nat)
    (hst : r.metricsConn.status = Status.OK) (hceil : 0 < r.s.maxMetricsRetries)
    (hn : 0 < n) :
    (settingsTryLaterIter r n).settings.retryActive = true ∧
    (settingsTryLaterIter r n).settings.retries = 1 ∧
    (∀ (sd : Sender) (now amp ceil2 : Nat), ceil2 ≤ sd.retries →
        (sd.setRetryDelay now amp ceil2).2 = false) := by
  obtain ⟨m, rfl⟩ : ∃ m, n = m + 1 := ⟨n - 1, by omega⟩
  have h := settingsTryLaterIter_spec m r hst hceil
  refine ⟨h.1, h.2, ?_⟩
  intro sd now amp ceil2 hge
  unfold Sender.setRetryDelay
  simp [hge]

theorem c6_settings_retry_amended_witness :
    (settingsTryLaterIter freshReporter 1).settings.retryActive = true ∧
    (settingsTryLaterIter freshReporter 1).settings.retries = 1 := by
  have h := c6_settings_retry_amended freshReporter 1 (by decide) (by decide) (by decide)
  exact ⟨h.1, h.2.1⟩
